import Mathlib

/-!
Shallow embedding of the PKCS#11 engine source (e_pkcs11_eng.c):
the URI parser (`pkcs11_parse_items`, `pkcs11_parse`), percent decoding
(`urldecode`), field padding (`pkcs11_pad`), slot-id conversion (C `atoi`),
client-certificate selection (`cert_issuer_match` and the loop of
`pkcs11_load_ssl_client_cert`), and the session traces of the public
key-loading operations.

Modelling conventions:
  * C NUL-terminated byte strings are `List Char` (`Str`); they carry no
    embedded NUL byte, so the NUL tests of the C loops become end-of-list.
  * A C function pointer to an external collaborator (file reading, the
    console-PIN prompt, `getenv`, token-module calls) is a parameter.
  * `OPENSSL_strdup` / `OPENSSL_malloc` failure (out of memory) is not
    modelled; allocations always succeed.
  * A dereference of a NULL pointer (e.g. `strlen(NULL)` after an unchecked
    `urldecode` failure) is the explicit outcome `POutcome.undef`.
  * The `pinlen`/`idlen` fields of `PKCS11_CTX` always mirror the length of
    the corresponding byte string and are left implicit.
-/

/-- C byte strings, NUL-free. -/
abbrev Str := List Char

/-- Character list of a string literal. -/
def lstr (s : String) : Str := s.data

/-- Model of `strncmp(s, key, strlen(key)) == 0`: the first `key.length`
bytes of `s` equal `key`.  When `s` is shorter than `key` the C comparison
hits the terminating NUL and fails, which is the `[]` case here. -/
def strncmpEq : Str → Str → Bool
  | [], _ => true
  | _ :: _, [] => false
  | k :: ks, c :: cs => k == c && strncmpEq ks cs

/-- Splitting of the URI tail on `;`, as done by the scanning loop of
`pkcs11_parse_items` (which treats both `;` and the final NUL as segment
terminators, yielding the pieces between consecutive separators). -/
def splitSemi : Str → List Str
  | [] => [[]]
  | c :: rest =>
    if c = ';' then [] :: splitSemi rest
    else
      match splitSemi rest with
      | s :: ss => (c :: s) :: ss
      | [] => [[c]]

/-- `isxdigit` on ASCII. -/
def isxdigitC (c : Char) : Bool :=
  c.isDigit || ('a' ≤ c && c ≤ 'f') || ('A' ≤ c && c ≤ 'F')

/-- `OPENSSL_hexchar2int` for characters accepted by `isxdigitC`. -/
def hexVal (c : Char) : Nat :=
  if c.isDigit then c.toNat - 48
  else if 'a' ≤ c && c ≤ 'f' then c.toNat - 87
  else c.toNat - 55

/-- `urldecode` from the source: copies bytes, turns `%XY` (two hex digits)
into one byte, and returns NULL (`none`) on a `%` not followed by two hex
digits (including a `%` within two bytes of the end of the string). -/
def urldecodeL : Str → Option Str
  | [] => some []
  | '%' :: a :: b :: rest =>
    if isxdigitC a && isxdigitC b then
      (urldecodeL rest).map (fun t => Char.ofNat (hexVal a * 16 + hexVal b) :: t)
    else none
  | '%' :: _ => none
  | c :: rest => (urldecodeL rest).map (fun t => c :: t)

/-- The copying loop of `pkcs11_pad`: the first list is the output buffer
(pre-filled with spaces), the second the NUL-terminated input; copying stops
at the end of the buffer or the end of the input, leaving the remaining
spaces in place. -/
def padCopy : Str → Str → Str
  | [], _ => []
  | out, [] => out
  | _ :: os, c :: cs => c :: padCopy os cs

/-- `pkcs11_pad(field, len)`: a `len`-byte buffer filled with spaces, then
overwritten from `field` until NUL or the end of the buffer. -/
def pkcs11_pad (field : Str) (len : Nat) : Str :=
  padCopy (List.replicate len ' ') field

/-- `isspace` on the ASCII characters C `atoi` skips. -/
def isSpaceC (c : Char) : Bool :=
  c = ' ' || c = '\t' || c = '\n' || c = '\x0b' || c = '\x0c' || c = '\r'

/-- Numeric value of a (possibly empty) digit run, as accumulated by `atoi`. -/
def digitsNum (l : Str) : Nat :=
  l.foldl (fun acc c => acc * 10 + (c.toNat - 48)) 0

/-- C `atoi`: skip whitespace, optional sign, then the longest leading digit
run; an empty digit run gives 0.  (Overflow, undefined in C, does not arise
at the inputs considered here.) -/
def atoiL (s : Str) : Int :=
  match s.dropWhile isSpaceC with
  | '-' :: rest => - ((digitsNum (rest.takeWhile Char.isDigit) : Int))
  | '+' :: rest => (digitsNum (rest.takeWhile Char.isDigit) : Int)
  | t => (digitsNum (t.takeWhile Char.isDigit) : Int)

/-- The C cast `(CK_SLOT_ID) atoi(...)`: conversion to a 64-bit unsigned
integer, reducing modulo 2^64. -/
def slotCast (i : Int) : Nat := (i % (2 ^ 64 : Int)).toNat

/-- The fields of `PKCS11_CTX` the parser reads and writes.  `zalloc`
initialisation makes every pointer NULL (`none`), `slotid` 0, and the
fixed-width descriptor arrays all-zero bytes. -/
structure PKCS11_CTX where
  pin : Option Str := none
  label : Option Str := none
  id : Option Str := none
  type : Option Str := none
  module_path : Option Str := none
  slotid : Nat := 0
  model : Str := List.replicate 16 (Char.ofNat 0)
  serial : Str := List.replicate 16 (Char.ofNat 0)
  token : Str := List.replicate 32 (Char.ofNat 0)
  manufacturer : Str := List.replicate 32 (Char.ofNat 0)
deriving DecidableEq

/-- The distinct failure exits of the parsing code (`goto err` sites). -/
inductive ParseErr where
  | pinFileUnreadable
  | pinSourceNotFile
  | missingSelector
  | missingModulePath
  | promptFailed
deriving DecidableEq

/-- Outcome of a parsing function: C return 1, C return 0 at some `goto err`
site, or undefined behaviour (a NULL dereference). -/
inductive POutcome where
  | ok : PKCS11_CTX → POutcome
  | err : ParseErr → POutcome
  | undef : POutcome
deriving DecidableEq

/-- Externally observable side effects of parsing: which PIN files were
read (`pin_from_file` calls) and whether the console PIN prompt ran. -/
structure Eff where
  filesRead : List Str := []
  prompted : Bool := false
deriving DecidableEq

/-- One iteration of the recognition chain of `pkcs11_parse_items` on a
non-empty segment, in the source's branch order.  `fileRead` is the
`pin_from_file` collaborator (first line of the file, newline stripped, or
`none` when unreadable).  Unchecked NULL results of `urldecode` are kept
faithfully: `object=` and `module-path=` may assign `none`, while `model=`,
`serial=`, `token=`, `manufacturer=` (via `pkcs11_pad`) and `id=` (via
`strlen`) would dereference NULL, hence `undef`. -/
def procSeg (fileRead : Str → Option Str) (ctx : PKCS11_CTX) (eff : Eff)
    (seg : Str) : POutcome × Eff :=
  if strncmpEq (lstr "pin-value=") seg && ctx.pin.isNone then
    (.ok {ctx with pin := some (seg.drop 10)}, eff)
  else if strncmpEq (lstr "pin-source=") seg && ctx.pin.isNone then
    let r := seg.drop 11
    if strncmpEq (lstr "file:") r then
      let fname := r.drop 5
      let eff2 := {eff with filesRead := eff.filesRead ++ [fname]}
      match fileRead fname with
      | some pw => (.ok {ctx with pin := some pw}, eff2)
      | none => (.err .pinFileUnreadable, eff2)
    else (.err .pinSourceNotFile, eff)
  else if strncmpEq (lstr "object=") seg && ctx.label.isNone then
    (.ok {ctx with label := urldecodeL (seg.drop 7)}, eff)
  else if strncmpEq (lstr "model=") seg then
    match urldecodeL (seg.drop 6) with
    | some v => (.ok {ctx with model := pkcs11_pad v 16}, eff)
    | none => (.undef, eff)
  else if strncmpEq (lstr "serial=") seg then
    match urldecodeL (seg.drop 7) with
    | some v => (.ok {ctx with serial := pkcs11_pad v 16}, eff)
    | none => (.undef, eff)
  else if strncmpEq (lstr "token=") seg then
    match urldecodeL (seg.drop 6) with
    | some v => (.ok {ctx with token := pkcs11_pad v 32}, eff)
    | none => (.undef, eff)
  else if strncmpEq (lstr "manufacturer=") seg then
    match urldecodeL (seg.drop 13) with
    | some v => (.ok {ctx with manufacturer := pkcs11_pad v 32}, eff)
    | none => (.undef, eff)
  else if strncmpEq (lstr "id=") seg && ctx.id.isNone then
    match urldecodeL (seg.drop 3) with
    | some v => (.ok {ctx with id := some v}, eff)
    | none => (.undef, eff)
  else if strncmpEq (lstr "type=") seg && ctx.type.isNone then
    (.ok {ctx with type := some (seg.drop 5)}, eff)
  else if strncmpEq (lstr "module-path=") seg && ctx.module_path.isNone then
    (.ok {ctx with module_path := urldecodeL (seg.drop 12)}, eff)
  else if strncmpEq (lstr "slot-id=") seg && ctx.slotid == 0 then
    (.ok {ctx with slotid := slotCast (atoiL (seg.drop 8))}, eff)
  else (.ok ctx, eff)

/-- The segment loop of `pkcs11_parse_items`: empty segments (`p == q`) are
skipped, a failing segment aborts the whole call. -/
def goItems (fileRead : Str → Option Str) :
    List Str → PKCS11_CTX → Eff → POutcome × Eff
  | [], ctx, eff => (.ok ctx, eff)
  | seg :: rest, ctx, eff =>
    if seg.isEmpty then goItems fileRead rest ctx eff
    else
      match procSeg fileRead ctx eff seg with
      | (.ok ctx2, eff2) => goItems fileRead rest ctx2 eff2
      | other => other

/-- `pkcs11_parse_items(ctx, uri, store)`.  The `store` flag is unused by
the item scanner itself. -/
def pkcs11_parse_items (fileRead : Str → Option Str) (ctx : PKCS11_CTX)
    (uri : Str) : POutcome × Eff :=
  goItems fileRead (splitSemi uri) ctx {}

/-- The condition `ctx->type != NULL && strncmp(ctx->type, "private", 7) == 0`
guarding the interactive prompt in `pkcs11_parse`. -/
def typeIsPrivate (ctx : PKCS11_CTX) : Bool :=
  match ctx.type with
  | some t => strncmpEq (lstr "private") t
  | none => false

/-- The full prompt condition of `pkcs11_parse`, line 407 of the source:
`ctx->pin == NULL && (!store || (store && <type is private>))`. -/
def promptCond (store : Bool) (ctx : PKCS11_CTX) : Bool :=
  ctx.pin.isNone && (!store || (store && typeIsPrivate ctx))

/-- The console-PIN step of `pkcs11_parse`: when the prompt condition holds,
call `pkcs11_get_console_pin` (modelled by `promptPin`); a NULL result is
the `PIN is invalid` failure return. -/
def promptPhase (promptPin : Option Str) (store : Bool) (ctx : PKCS11_CTX)
    (eff : Eff) : POutcome × Eff :=
  if promptCond store ctx then
    let eff2 := {eff with prompted := true}
    match promptPin with
    | none => (.err .promptFailed, eff2)
    | some pw => (.ok {ctx with pin := some pw}, eff2)
  else (.ok ctx, eff)

/-- The module-path fallback of `pkcs11_parse`: when `ctx->module_path` is
NULL, consult the environment (`secure_getenv("PKCS11_MODULE_PATH")`,
modelled by `env`); when that is also NULL the parse fails. -/
def checkModulePath (env : Option Str) (ctx : PKCS11_CTX) :
    Option PKCS11_CTX :=
  match ctx.module_path with
  | some _ => some ctx
  | none =>
    match env with
    | some m => some {ctx with module_path := some m}
    | none => none

/-- The part of `pkcs11_parse` after the scheme-specific phase: module-path
fallback, then the prompt step. -/
def parseTail (env promptPin : Option Str) (store : Bool) (ctx : PKCS11_CTX)
    (eff : Eff) : POutcome × Eff :=
  match checkModulePath env ctx with
  | none => (.err .missingModulePath, eff)
  | some ctx2 => promptPhase promptPin store ctx2 eff

/-- `pkcs11_parse(ctx, path, store)`: a `pkcs11:`-prefixed path goes through
`pkcs11_parse_items` and, in a non-store context, the id/label presence
check; a bare path is percent-decoded directly into `ctx->id` (an unchecked
NULL there reaches `strlen(NULL)`, hence `undef`); then the common tail. -/
def pkcs11_parse (fileRead : Str → Option Str) (env promptPin : Option Str)
    (ctx : PKCS11_CTX) (path : Str) (store : Bool) : POutcome × Eff :=
  if strncmpEq (lstr "pkcs11:") path then
    match pkcs11_parse_items fileRead ctx (path.drop 7) with
    | (.ok ctx1, eff) =>
      if ctx1.id.isNone && ctx1.label.isNone && !store then
        (.err .missingSelector, eff)
      else parseTail env promptPin store ctx1 eff
    | other => other
  else
    match urldecodeL path with
    | some v => parseTail env promptPin store {ctx with id := some v} {}
    | none => (.undef, {})

/-- A candidate certificate as seen by the selection loop of
`pkcs11_load_ssl_client_cert`: its issuer distinguished name (compared by
`X509_NAME_cmp`, modelled as equality on an abstract name string), the
result of `X509_check_purpose(cert, X509_PURPOSE_SSL_CLIENT, 0)`, and its
CKA_ID as produced by `pkcs11_search_next_cert`. -/
structure CertInfo where
  issuer : Str
  clientAuthOk : Bool
  id : Str
deriving DecidableEq

/-- `cert_issuer_match(ca_dn, x)`: an empty candidate-issuer list matches
anything; otherwise some entry must compare equal to the certificate's
issuer name. -/
def cert_issuer_match (ca_dn : List Str) (c : CertInfo) : Bool :=
  if ca_dn.length ≤ 0 then true
  else ca_dn.any (fun nm => nm == c.issuer)

/-- The acceptance test of the selection loop: issuer match and client-auth
purpose. -/
def acceptCert (ca_dn : List Str) (c : CertInfo) : Bool :=
  cert_issuer_match ca_dn c && c.clientAuthOk

/-- Result of the certificate selection loop: the values written through
`*pcert` / `*pkey`, the C return value, and the list of candidates the loop
actually examined (in order). -/
structure SelOut where
  pcert : Option CertInfo := none
  pkey : Option Nat := none
  ret : Bool := false
  examined : List CertInfo := []
deriving DecidableEq

/-- The `for (i = 0;; i++)` loop of `pkcs11_load_ssl_client_cert`:
`certs` is the sequence `pkcs11_search_next_cert` yields before signalling
exhaustion; on the first acceptable candidate the loop stores the
certificate, re-targets the criteria to its id, looks the private key up
(`keyFor`), materializes it (`load`), and breaks — note `*pcert` is written
before the key lookup, so it stays set even when the key is missing and the
call fails. -/
def certLoop (ca_dn : List Str) (keyFor : Str → Option Nat)
    (load : Nat → Option Nat) : List CertInfo → SelOut
  | [] => {}
  | c :: rest =>
    if acceptCert ca_dn c then
      match keyFor c.id with
      | none => {pcert := some c, ret := false, examined := [c]}
      | some k => {pcert := some c, pkey := load k, ret := true, examined := [c]}
    else
      let r := certLoop ca_dn keyFor load rest
      {r with examined := c :: r.examined}

/-- Count of `pkcs11_start_session` successes and `pkcs11_end_session`
calls made by one public operation. -/
structure SessionTrace where
  opened : Nat := 0
  closed : Nat := 0
deriving DecidableEq

/-- Oracle for the external calls of `pkcs11_engine_load_private_key` /
`pkcs11_engine_load_public_key`: outcome of context lookup, `pkcs11_parse`,
`pkcs11_initialize`, `pkcs11_get_slot`, `pkcs11_start_session`,
`pkcs11_login`, the key search, and `pkcs11_load_pkey`. -/
structure PKOracle where
  ctx_present : Bool
  parse_ok : Bool
  init_ok : Bool
  slot_ok : Bool
  session_ok : Bool
  login_ok : Bool
  found_key : Option Nat
  load_res : Option Nat

/-- `pkcs11_engine_load_private_key` (the control skeleton of
`pkcs11_engine_load_public_key` is identical): every failure after the
session is opened jumps to the trailing `err` label, which only traces and
returns NULL — the function contains no `pkcs11_end_session` call, so the
`closed` component of the trace is 0 on every path, the success path
included (where the session intentionally stays open for later signing). -/
def pkcs11_engine_load_private_key (o : PKOracle) : Option Nat × SessionTrace :=
  if !o.ctx_present then (none, {})
  else if !o.parse_ok then (none, {})
  else if !o.init_ok then (none, {})
  else if !o.slot_ok then (none, {})
  else if !o.session_ok then (none, {})
  else
    let t : SessionTrace := {opened := 1, closed := 0}
    if !o.login_ok then (none, t)
    else
      match o.found_key with
      | none => (none, t)
      | some _ => (o.load_res, t)

/-- Oracle for `pkcs11_load_ssl_client_cert`: context lookup,
`pkcs11_initialize`, `pkcs11_get_slot`, `pkcs11_start_session`, the PIN
already present on the context, the console prompt, `pkcs11_search_start`,
the candidate-issuer list, the certificate stream, the private-key lookup
by id, and `pkcs11_load_pkey`. -/
structure CCOracle where
  ctx_present : Bool
  init_ok : Bool
  slot_ok : Bool
  session_ok : Bool
  pin0 : Option Str
  promptPin : Option Str
  search_ok : Bool
  ca_dn : List Str
  certs : List CertInfo
  keyFor : Str → Option Nat
  load : Nat → Option Nat

/-- Result of `pkcs11_load_ssl_client_cert` plus its session trace. -/
structure CCOut where
  pcert : Option CertInfo := none
  pkey : Option Nat := none
  ret : Bool := false
  examined : List CertInfo := []
  trace : SessionTrace := {}

/-- `pkcs11_load_ssl_client_cert`: opens a session, acquires a PIN
(prompting when none is set), starts a certificate search and runs
`certLoop`.  Every failure path jumps to the trailing `err` label which only
frees the store context; like the key loaders, the function contains no
`pkcs11_end_session` call, so `trace.closed` is 0 on every path. -/
def pkcs11_load_ssl_client_cert (o : CCOracle) : CCOut :=
  if !o.ctx_present then {}
  else if !o.init_ok then {}
  else if !o.slot_ok then {}
  else if !o.session_ok then {}
  else
    let t : SessionTrace := {opened := 1, closed := 0}
    let pinOk : Bool := o.pin0.isSome || o.promptPin.isSome
    if !pinOk then {trace := t}
    else if !o.search_ok then {trace := t}
    else
      let s := certLoop o.ca_dn o.keyFor o.load o.certs
      {pcert := s.pcert, pkey := s.pkey, ret := s.ret,
       examined := s.examined, trace := t}

/-- A file-reading collaborator with no readable files. -/
def fr0 : Str → Option Str := fun _ => none

/-- A file-reading collaborator where file `f` holds the PIN `filesecret`. -/
def fr1 : Str → Option Str :=
  fun f => if f == lstr "f" then some (lstr "filesecret") else none

lemma padCopy_eq (out field : Str) :
    padCopy out field = field.take out.length ++ out.drop field.length := by
  induction out generalizing field with
  | nil => simp [padCopy]
  | cons o os ih =>
    cases field with
    | nil => simp [padCopy]
    | cons c cs => simp [padCopy, ih cs]

lemma pkcs11_pad_eq (s : Str) (w : Nat) :
    pkcs11_pad s w = s.take w ++ List.replicate (w - s.length) ' ' := by
  rw [pkcs11_pad, padCopy_eq]
  simp [List.drop_replicate]

lemma pkcs11_pad_len (s : Str) (w : Nat) : (pkcs11_pad s w).length = w := by
  rw [pkcs11_pad_eq]
  simp [List.length_take, List.length_replicate]
  omega

lemma pkcs11_pad_take (s : Str) (w : Nat) :
    pkcs11_pad s w = s.take w ++ List.replicate (w - (s.take w).length) ' ' := by
  have h : w - s.length = w - (s.take w).length := by
    simp [List.length_take]
    omega
  rw [pkcs11_pad_eq, h]

/-- Claim C10: `pkcs11_pad` returns a buffer of exactly `w` bytes holding the
first `min (length s) w` bytes of `s` followed by ASCII spaces; an input
longer than the field width is truncated to its first `w` bytes, so two
inputs sharing their first `w` bytes pad to identical buffers and compare
equal against the same descriptor field. -/
theorem claim10_pad : ∀ (s : Str) (w : Nat),
    (pkcs11_pad s w).length = w
    ∧ pkcs11_pad s w = s.take w ++ List.replicate (w - s.length) ' '
    ∧ (∀ s2 : Str, s.take w = s2.take w → pkcs11_pad s w = pkcs11_pad s2 w) := by
  intro s w
  refine ⟨pkcs11_pad_len s w, pkcs11_pad_eq s w, ?_⟩
  intro s2 h
  rw [pkcs11_pad_take s w, pkcs11_pad_take s2 w, h]

/-- Witness for C10 at concrete inputs: an 18-byte and a 17-byte string that
agree on their first 16 bytes pad to the same 16-byte field. -/
theorem claim10_pad_witness :
    (lstr "ABCDEFGHIJKLMNOPQR").take 16 = (lstr "ABCDEFGHIJKLMNOPZ").take 16
    ∧ pkcs11_pad (lstr "ABCDEFGHIJKLMNOPQR") 16
        = pkcs11_pad (lstr "ABCDEFGHIJKLMNOPZ") 16 :=
  ⟨by decide, (claim10_pad (lstr "ABCDEFGHIJKLMNOPQR") 16).2.2
    (lstr "ABCDEFGHIJKLMNOPZ") (by decide)⟩
lemma takeWhile_digits_nil (l : Str) (h : ∀ c ∈ l, c.isDigit = false) :
    l.takeWhile Char.isDigit = [] := by
  cases l with
  | nil => rfl
  | cons a as => simp [List.takeWhile_cons, h a (by simp)]

lemma nodigit_atoi (s : Str) (h : ∀ c ∈ s, c.isDigit = false) : atoiL s = 0 := by
  have hsub : ∀ c ∈ s.dropWhile isSpaceC, c.isDigit = false :=
    fun c hc => h c ((List.dropWhile_sublist isSpaceC).subset hc)
  unfold atoiL
  split
  case _ rest heq =>
    have : ∀ c ∈ rest, c.isDigit = false := by
      intro c hc
      exact hsub c (heq ▸ List.mem_cons_of_mem _ hc)
    simp [takeWhile_digits_nil rest this, digitsNum]
  case _ rest heq =>
    have : ∀ c ∈ rest, c.isDigit = false := by
      intro c hc
      exact hsub c (heq ▸ List.mem_cons_of_mem _ hc)
    simp [takeWhile_digits_nil rest this, digitsNum]
  case _ t h1 h2 =>
    simp [takeWhile_digits_nil _ hsub, digitsNum]

/-- Claim C9: the slot-id attribute goes through C `atoi` under a
`slotid == 0` duplicate guard: a digit-free value yields slot id 0 and the
parse succeeds (no error), so the attribute is thereafter treated as unset —
a later `slot-id=` segment overwrites it — and an explicit `slot-id=0`
receives no first-occurrence protection either. -/
theorem claim9_slotid_atoi :
    (∀ s : Str, (∀ c ∈ s, c.isDigit = false) → atoiL s = 0)
    ∧ (∀ fr ctx eff (v : Str), ctx.slotid = 0 →
        procSeg fr ctx eff (lstr "slot-id=" ++ v)
          = (POutcome.ok {ctx with slotid := slotCast (atoiL v)}, eff))
    ∧ (pkcs11_parse_items fr0 {} (lstr "slot-id=abc")).1 = POutcome.ok {}
    ∧ (pkcs11_parse_items fr0 {} (lstr "slot-id=abc;slot-id=7")).1
        = POutcome.ok {slotid := 7}
    ∧ (pkcs11_parse_items fr0 {} (lstr "slot-id=0;slot-id=7")).1
        = POutcome.ok {slotid := 7} := by
  refine ⟨nodigit_atoi, ?_, by decide, by decide, by decide⟩
  intro fr ctx eff v h
  rcases ctx with ⟨pin, label, id, type, mp, slotid, model, serial, token, manu⟩
  simp only at h
  subst h
  rfl

/-- Witness for C9: `atoi` of the digit-free `abc` is 0, and a `slot-id=`
segment hitting a context whose slot id is 0 stores the converted value. -/
theorem claim9_slotid_atoi_witness :
    atoiL (lstr "abc") = 0
    ∧ procSeg fr0 {} {} (lstr "slot-id=" ++ lstr "7")
        = (POutcome.ok {slotid := slotCast (atoiL (lstr "7"))}, {}) :=
  ⟨claim9_slotid_atoi.1 (lstr "abc") (by decide),
   claim9_slotid_atoi.2.1 fr0 {} {} (lstr "7") rfl⟩

/-- The oracle of a `load_private_key` call where everything up to and
including `pkcs11_start_session` succeeds and `pkcs11_login` fails
(e.g. a wrong PIN). -/
def pkLoginFail : PKOracle :=
  {ctx_present := true, parse_ok := true, init_ok := true, slot_ok := true,
   session_ok := true, login_ok := false, found_key := none, load_res := none}

/-- The oracle of a `load_ssl_client_cert` call where the session opens and
the console PIN prompt then fails. -/
def ccPromptFail : CCOracle :=
  {ctx_present := true, init_ok := true, slot_ok := true, session_ok := true,
   pin0 := none, promptPin := none, search_ok := true, ca_dn := [],
   certs := [], keyFor := fun _ => none, load := fun _ => none}

/-- Claim C1 (demonstrating the code bug): after a successful
`pkcs11_start_session`, a `pkcs11_login` failure in
`pkcs11_engine_load_private_key` propagates through the `err` label without
any `pkcs11_end_session` call — indeed neither that function nor
`pkcs11_load_ssl_client_cert` ever closes a session on any path, so the
count of close calls is 0, not the 1 the specification requires. -/
theorem claim1_session_never_closed :
    pkcs11_engine_load_private_key pkLoginFail = (none, {opened := 1, closed := 0})
    ∧ (∀ o : PKOracle, (pkcs11_engine_load_private_key o).2.closed = 0)
    ∧ (pkcs11_load_ssl_client_cert ccPromptFail).ret = false
    ∧ (pkcs11_load_ssl_client_cert ccPromptFail).trace = {opened := 1, closed := 0}
    ∧ (∀ o : CCOracle, (pkcs11_load_ssl_client_cert o).trace.closed = 0) := by
  refine ⟨rfl, ?_, rfl, rfl, ?_⟩
  · intro o
    rcases o with ⟨cp, po, io, so, se, lo, fk, lr⟩
    cases cp <;> cases po <;> cases io <;> cases so <;> cases se <;> cases lo
      <;> cases fk <;> rfl
  · intro o
    rcases o with ⟨cp, io, so, se, p0, pp, sr, dn, cs, kf, ld⟩
    cases cp <;> cases io <;> cases so <;> cases se <;> cases p0 <;> cases pp
      <;> cases sr <;> rfl

/-- Claim C3 (demonstrating the code bug): `urldecode` signals a bad percent
escape by returning NULL, but its callers never check: `object=%G1` keeps
`label` NULL and the parse reports success (so the failure never propagates),
and `id=%G1` reaches `strlen(NULL)` — undefined behaviour — instead of a
clean parse failure; a full `pkcs11_parse` over a URI with an undecodable
`object=` value still returns success. -/
theorem claim3_decode_failure_not_propagated :
    urldecodeL (lstr "%G1") = none
    ∧ urldecodeL (lstr "My%20Key") = some (lstr "My Key")
    ∧ (pkcs11_parse_items fr0 {} (lstr "object=%G1")).1 = POutcome.ok {}
    ∧ (pkcs11_parse_items fr0 {} (lstr "id=%G1")).1 = POutcome.undef
    ∧ (pkcs11_parse fr0 (some (lstr "m")) (some (lstr "p")) {}
        (lstr "pkcs11:object=%G1;id=ab") false).1
        = POutcome.ok {id := some (lstr "ab"), module_path := some (lstr "m"),
                       pin := some (lstr "p")} := by
  refine ⟨by decide, by decide, by decide, by decide, by decide⟩

set_option linter.unreachableTactic false

lemma procSeg_spec (fr : Str → Option Str) (ctx : PKCS11_CTX) (eff : Eff)
    (seg : Str) (out : POutcome) (eff2 : Eff)
    (h : procSeg fr ctx eff seg = (out, eff2)) :
    (ctx.pin.isSome = true → eff2 = eff)
    ∧ (∀ ctx2, out = POutcome.ok ctx2 →
        (ctx.pin.isSome = true → ctx2.pin = ctx.pin)
        ∧ (ctx.label.isSome = true → ctx2.label = ctx.label)
        ∧ (ctx.id.isSome = true → ctx2.id = ctx.id)
        ∧ (ctx.type.isSome = true → ctx2.type = ctx.type)
        ∧ (ctx.module_path.isSome = true → ctx2.module_path = ctx.module_path)
        ∧ (ctx.slotid ≠ 0 → ctx2.slotid = ctx.slotid))
    ∧ (∀ e, out = POutcome.err e →
        e = ParseErr.pinFileUnreadable ∨ e = ParseErr.pinSourceNotFile) := by
  simp only [procSeg] at h
  by_cases c1 : (strncmpEq (lstr "pin-value=") seg && ctx.pin.isNone) = true
  · rw [if_pos c1] at h
    simp only [Prod.mk.injEq] at h
    obtain ⟨h1, h2⟩ := h
    subst h1
    subst h2
    refine ⟨?_, ?_, ?_⟩
    · intro hp
      simp_all
    · intro ctx2 hout
      cases hout <;> (refine ⟨?_, ?_, ?_, ?_, ?_, ?_⟩ <;> intro hp <;> simp_all)
    · intro e hout
      cases hout <;> simp_all
  · rw [if_neg c1] at h
    by_cases c2 : (strncmpEq (lstr "pin-source=") seg && ctx.pin.isNone) = true
    · rw [if_pos c2] at h
      by_cases c2f : strncmpEq (lstr "file:") (List.drop 11 seg) = true
      · rw [if_pos c2f] at h
        cases hf : fr (List.drop 5 (List.drop 11 seg)) <;> rw [hf] at h
        · -- none
          simp only [Prod.mk.injEq] at h
          obtain ⟨h1, h2⟩ := h
          subst h1
          subst h2
          refine ⟨?_, ?_, ?_⟩
          · intro hp
            simp_all
          · intro ctx2 hout
            cases hout <;> (refine ⟨?_, ?_, ?_, ?_, ?_, ?_⟩ <;> intro hp <;> simp_all)
          · intro e hout
            cases hout <;> simp_all
        · -- some
          simp only [Prod.mk.injEq] at h
          obtain ⟨h1, h2⟩ := h
          subst h1
          subst h2
          refine ⟨?_, ?_, ?_⟩
          · intro hp
            simp_all
          · intro ctx2 hout
            cases hout <;> (refine ⟨?_, ?_, ?_, ?_, ?_, ?_⟩ <;> intro hp <;> simp_all)
          · intro e hout
            cases hout <;> simp_all
      · rw [if_neg c2f] at h
        simp only [Prod.mk.injEq] at h
        obtain ⟨h1, h2⟩ := h
        subst h1
        subst h2
        refine ⟨?_, ?_, ?_⟩
        · intro hp
          simp_all
        · intro ctx2 hout
          cases hout <;> (refine ⟨?_, ?_, ?_, ?_, ?_, ?_⟩ <;> intro hp <;> simp_all)
        · intro e hout
          cases hout <;> simp_all
    · rw [if_neg c2] at h
      by_cases c3 : (strncmpEq (lstr "object=") seg && ctx.label.isNone) = true
      · rw [if_pos c3] at h
        simp only [Prod.mk.injEq] at h
        obtain ⟨h1, h2⟩ := h
        subst h1
        subst h2
        refine ⟨?_, ?_, ?_⟩
        · intro hp
          simp_all
        · intro ctx2 hout
          cases hout <;> (refine ⟨?_, ?_, ?_, ?_, ?_, ?_⟩ <;> intro hp <;> simp_all)
        · intro e hout
          cases hout <;> simp_all
      · rw [if_neg c3] at h
        by_cases c4 : strncmpEq (lstr "model=") seg = true
        · rw [if_pos c4] at h
          cases hd : urldecodeL (List.drop 6 seg) <;> rw [hd] at h
          · -- none
            simp only [Prod.mk.injEq] at h
            obtain ⟨h1, h2⟩ := h
            subst h1
            subst h2
            refine ⟨?_, ?_, ?_⟩
            · intro hp
              simp_all
            · intro ctx2 hout
              cases hout <;> (refine ⟨?_, ?_, ?_, ?_, ?_, ?_⟩ <;> intro hp <;> simp_all)
            · intro e hout
              cases hout <;> simp_all
          · -- some
            simp only [Prod.mk.injEq] at h
            obtain ⟨h1, h2⟩ := h
            subst h1
            subst h2
            refine ⟨?_, ?_, ?_⟩
            · intro hp
              simp_all
            · intro ctx2 hout
              cases hout <;> (refine ⟨?_, ?_, ?_, ?_, ?_, ?_⟩ <;> intro hp <;> simp_all)
            · intro e hout
              cases hout <;> simp_all
        · rw [if_neg c4] at h
          by_cases c5 : strncmpEq (lstr "serial=") seg = true
          · rw [if_pos c5] at h
            cases hd : urldecodeL (List.drop 7 seg) <;> rw [hd] at h
            · -- none
              simp only [Prod.mk.injEq] at h
              obtain ⟨h1, h2⟩ := h
              subst h1
              subst h2
              refine ⟨?_, ?_, ?_⟩
              · intro hp
                simp_all
              · intro ctx2 hout
                cases hout <;> (refine ⟨?_, ?_, ?_, ?_, ?_, ?_⟩ <;> intro hp <;> simp_all)
              · intro e hout
                cases hout <;> simp_all
            · -- some
              simp only [Prod.mk.injEq] at h
              obtain ⟨h1, h2⟩ := h
              subst h1
              subst h2
              refine ⟨?_, ?_, ?_⟩
              · intro hp
                simp_all
              · intro ctx2 hout
                cases hout <;> (refine ⟨?_, ?_, ?_, ?_, ?_, ?_⟩ <;> intro hp <;> simp_all)
              · intro e hout
                cases hout <;> simp_all
          · rw [if_neg c5] at h
            by_cases c6 : strncmpEq (lstr "token=") seg = true
            · rw [if_pos c6] at h
              cases hd : urldecodeL (List.drop 6 seg) <;> rw [hd] at h
              · -- none
                simp only [Prod.mk.injEq] at h
                obtain ⟨h1, h2⟩ := h
                subst h1
                subst h2
                refine ⟨?_, ?_, ?_⟩
                · intro hp
                  simp_all
                · intro ctx2 hout
                  cases hout <;> (refine ⟨?_, ?_, ?_, ?_, ?_, ?_⟩ <;> intro hp <;> simp_all)
                · intro e hout
                  cases hout <;> simp_all
              · -- some
                simp only [Prod.mk.injEq] at h
                obtain ⟨h1, h2⟩ := h
                subst h1
                subst h2
                refine ⟨?_, ?_, ?_⟩
                · intro hp
                  simp_all
                · intro ctx2 hout
                  cases hout <;> (refine ⟨?_, ?_, ?_, ?_, ?_, ?_⟩ <;> intro hp <;> simp_all)
                · intro e hout
                  cases hout <;> simp_all
            · rw [if_neg c6] at h
              by_cases c7 : strncmpEq (lstr "manufacturer=") seg = true
              · rw [if_pos c7] at h
                cases hd : urldecodeL (List.drop 13 seg) <;> rw [hd] at h
                · -- none
                  simp only [Prod.mk.injEq] at h
                  obtain ⟨h1, h2⟩ := h
                  subst h1
                  subst h2
                  refine ⟨?_, ?_, ?_⟩
                  · intro hp
                    simp_all
                  · intro ctx2 hout
                    cases hout <;> (refine ⟨?_, ?_, ?_, ?_, ?_, ?_⟩ <;> intro hp <;> simp_all)
                  · intro e hout
                    cases hout <;> simp_all
                · -- some
                  simp only [Prod.mk.injEq] at h
                  obtain ⟨h1, h2⟩ := h
                  subst h1
                  subst h2
                  refine ⟨?_, ?_, ?_⟩
                  · intro hp
                    simp_all
                  · intro ctx2 hout
                    cases hout <;> (refine ⟨?_, ?_, ?_, ?_, ?_, ?_⟩ <;> intro hp <;> simp_all)
                  · intro e hout
                    cases hout <;> simp_all
              · rw [if_neg c7] at h
                by_cases c8 : (strncmpEq (lstr "id=") seg && ctx.id.isNone) = true
                · rw [if_pos c8] at h
                  cases hd : urldecodeL (List.drop 3 seg) <;> rw [hd] at h
                  · -- none
                    simp only [Prod.mk.injEq] at h
                    obtain ⟨h1, h2⟩ := h
                    subst h1
                    subst h2
                    refine ⟨?_, ?_, ?_⟩
                    · intro hp
                      simp_all
                    · intro ctx2 hout
                      cases hout <;> (refine ⟨?_, ?_, ?_, ?_, ?_, ?_⟩ <;> intro hp <;> simp_all)
                    · intro e hout
                      cases hout <;> simp_all
                  · -- some
                    simp only [Prod.mk.injEq] at h
                    obtain ⟨h1, h2⟩ := h
                    subst h1
                    subst h2
                    refine ⟨?_, ?_, ?_⟩
                    · intro hp
                      simp_all
                    · intro ctx2 hout
                      cases hout <;> (refine ⟨?_, ?_, ?_, ?_, ?_, ?_⟩ <;> intro hp <;> simp_all)
                    · intro e hout
                      cases hout <;> simp_all
                · rw [if_neg c8] at h
                  by_cases c9 : (strncmpEq (lstr "type=") seg && ctx.type.isNone) = true
                  · rw [if_pos c9] at h
                    simp only [Prod.mk.injEq] at h
                    obtain ⟨h1, h2⟩ := h
                    subst h1
                    subst h2
                    refine ⟨?_, ?_, ?_⟩
                    · intro hp
                      simp_all
                    · intro ctx2 hout
                      cases hout <;> (refine ⟨?_, ?_, ?_, ?_, ?_, ?_⟩ <;> intro hp <;> simp_all)
                    · intro e hout
                      cases hout <;> simp_all
                  · rw [if_neg c9] at h
                    by_cases c10 : (strncmpEq (lstr "module-path=") seg && ctx.module_path.isNone) = true
                    · rw [if_pos c10] at h
                      simp only [Prod.mk.injEq] at h
                      obtain ⟨h1, h2⟩ := h
                      subst h1
                      subst h2
                      refine ⟨?_, ?_, ?_⟩
                      · intro hp
                        simp_all
                      · intro ctx2 hout
                        cases hout <;> (refine ⟨?_, ?_, ?_, ?_, ?_, ?_⟩ <;> intro hp <;> simp_all)
                      · intro e hout
                        cases hout <;> simp_all
                    · rw [if_neg c10] at h
                      by_cases c11 : (strncmpEq (lstr "slot-id=") seg && ctx.slotid == 0) = true
                      · rw [if_pos c11] at h
                        simp only [Prod.mk.injEq] at h
                        obtain ⟨h1, h2⟩ := h
                        subst h1
                        subst h2
                        refine ⟨?_, ?_, ?_⟩
                        · intro hp
                          simp_all
                        · intro ctx2 hout
                          cases hout <;> (refine ⟨?_, ?_, ?_, ?_, ?_, ?_⟩ <;> intro hp <;> simp_all)
                        · intro e hout
                          cases hout <;> simp_all
                      · rw [if_neg c11] at h
                        simp only [Prod.mk.injEq] at h
                        obtain ⟨h1, h2⟩ := h
                        subst h1
                        subst h2
                        refine ⟨?_, ?_, ?_⟩
                        · intro hp
                          simp_all
                        · intro ctx2 hout
                          cases hout <;> (refine ⟨?_, ?_, ?_, ?_, ?_, ?_⟩ <;> intro hp <;> simp_all)
                        · intro e hout
                          cases hout <;> simp_all

lemma goItems_spec (fr : Str → Option Str) : ∀ (segs : List Str)
    (ctx : PKCS11_CTX) (eff : Eff) (out : POutcome) (eff2 : Eff),
    goItems fr segs ctx eff = (out, eff2) →
    (ctx.pin.isSome = true → eff2 = eff)
    ∧ (∀ ctx2, out = POutcome.ok ctx2 →
        (ctx.pin.isSome = true → ctx2.pin = ctx.pin)
        ∧ (ctx.label.isSome = true → ctx2.label = ctx.label)
        ∧ (ctx.id.isSome = true → ctx2.id = ctx.id)
        ∧ (ctx.type.isSome = true → ctx2.type = ctx.type)
        ∧ (ctx.module_path.isSome = true → ctx2.module_path = ctx.module_path)
        ∧ (ctx.slotid ≠ 0 → ctx2.slotid = ctx.slotid))
    ∧ (∀ e, out = POutcome.err e →
        e = ParseErr.pinFileUnreadable ∨ e = ParseErr.pinSourceNotFile) := by
  intro segs
  induction segs with
  | nil =>
    intro ctx eff out eff2 h
    simp only [goItems, Prod.mk.injEq] at h
    obtain ⟨h1, h2⟩ := h
    subst h1
    subst h2
    refine ⟨fun _ => rfl, ?_, ?_⟩
    · intro ctx2 hout
      cases hout <;> (refine ⟨?_, ?_, ?_, ?_, ?_, ?_⟩ <;> intro hp <;> simp_all)
    · intro e hout
      cases hout
  | cons seg rest ih =>
    intro ctx eff out eff2 h
    simp only [goItems] at h
    by_cases hemp : seg.isEmpty = true
    · rw [if_pos hemp] at h
      exact ih ctx eff out eff2 h
    · rw [if_neg hemp] at h
      rcases hps : procSeg fr ctx eff seg with ⟨out1, eff1⟩
      rw [hps] at h
      have hspec := procSeg_spec fr ctx eff seg out1 eff1 hps
      cases out1 with
      | ok c2 =>
        have hrest := ih c2 eff1 out eff2 h
        have hfields := hspec.2.1 c2 rfl
        refine ⟨?_, ?_, ?_⟩
        · intro hp
          have hc2pin : c2.pin = ctx.pin := hfields.1 hp
          have hc2some : c2.pin.isSome = true := by rw [hc2pin]; exact hp
          rw [hrest.1 hc2some, hspec.1 hp]
        · intro ctx2 hout
          have hf2 := hrest.2.1 ctx2 hout
          refine ⟨?_, ?_, ?_, ?_, ?_, ?_⟩ <;> intro hp
          · rw [hf2.1 (by rw [hfields.1 hp]; exact hp), hfields.1 hp]
          · rw [hf2.2.1 (by rw [hfields.2.1 hp]; exact hp), hfields.2.1 hp]
          · rw [hf2.2.2.1 (by rw [hfields.2.2.1 hp]; exact hp), hfields.2.2.1 hp]
          · rw [hf2.2.2.2.1 (by rw [hfields.2.2.2.1 hp]; exact hp),
              hfields.2.2.2.1 hp]
          · rw [hf2.2.2.2.2.1 (by rw [hfields.2.2.2.2.1 hp]; exact hp),
              hfields.2.2.2.2.1 hp]
          · rw [hf2.2.2.2.2.2 (by rw [hfields.2.2.2.2.2 hp]; exact hp),
              hfields.2.2.2.2.2 hp]
        · exact hrest.2.2
      | err e1 =>
        simp only [Prod.mk.injEq] at h
        obtain ⟨h1, h2⟩ := h
        subst h1
        subst h2
        refine ⟨hspec.1, ?_, ?_⟩
        · intro ctx2 hout
          cases hout
        · intro e hout
          cases hout
          exact hspec.2.2 e1 rfl
      | undef =>
        simp only [Prod.mk.injEq] at h
        obtain ⟨h1, h2⟩ := h
        subst h1
        subst h2
        refine ⟨hspec.1, ?_, ?_⟩
        · intro ctx2 hout
          cases hout
        · intro e hout
          cases hout

/-- Counterexample to claim C2 as stated: for each of the four recognized
attributes `model`, `serial`, `token` and `manufacturer` a duplicate is not
ignored — `model=AA;model=BB` yields the padded `BB` (the last occurrence),
and likewise for the other three; the padded `BB` and `AA` values differ at
both field widths, so the parses genuinely contradict first-occurrence-wins. -/
theorem claim2_counterexample :
    (pkcs11_parse_items fr0 {} (lstr "model=AA;model=BB")).1
      = POutcome.ok {model := pkcs11_pad (lstr "BB") 16}
    ∧ (pkcs11_parse_items fr0 {} (lstr "serial=AA;serial=BB")).1
      = POutcome.ok {serial := pkcs11_pad (lstr "BB") 16}
    ∧ (pkcs11_parse_items fr0 {} (lstr "token=AA;token=BB")).1
      = POutcome.ok {token := pkcs11_pad (lstr "BB") 32}
    ∧ (pkcs11_parse_items fr0 {} (lstr "manufacturer=AA;manufacturer=BB")).1
      = POutcome.ok {manufacturer := pkcs11_pad (lstr "BB") 32}
    ∧ pkcs11_pad (lstr "BB") 16 ≠ pkcs11_pad (lstr "AA") 16
    ∧ pkcs11_pad (lstr "BB") 32 ≠ pkcs11_pad (lstr "AA") 32 := by
  refine ⟨by decide, by decide, by decide, by decide, by decide, by decide⟩

/-- Claim C2 as amended: first occurrence wins for the guarded attributes —
pin-value / pin-source (jointly, via `pin`), object, id, type, module-path —
and for slot-id once a nonzero value is stored; but `model=`, `serial=`,
`token=`, `manufacturer=` carry no guard, so for each of those four a later
occurrence overwrites the field regardless of its current value and the last
occurrence wins (e.g. `model=AA;model=BB` stores padded `BB`, while
`id=01;id=02` stores decoded `01`). -/
theorem claim2_amended_duplicates :
    (∀ fr segs ctx eff ctx2 eff2,
      goItems fr segs ctx eff = (POutcome.ok ctx2, eff2) →
        (ctx.pin.isSome = true → ctx2.pin = ctx.pin)
        ∧ (ctx.label.isSome = true → ctx2.label = ctx.label)
        ∧ (ctx.id.isSome = true → ctx2.id = ctx.id)
        ∧ (ctx.type.isSome = true → ctx2.type = ctx.type)
        ∧ (ctx.module_path.isSome = true → ctx2.module_path = ctx.module_path)
        ∧ (ctx.slotid ≠ 0 → ctx2.slotid = ctx.slotid))
    ∧ (∀ fr ctx eff v d, urldecodeL v = some d →
        procSeg fr ctx eff (lstr "model=" ++ v)
          = (POutcome.ok {ctx with model := pkcs11_pad d 16}, eff))
    ∧ (∀ fr ctx eff v d, urldecodeL v = some d →
        procSeg fr ctx eff (lstr "serial=" ++ v)
          = (POutcome.ok {ctx with serial := pkcs11_pad d 16}, eff))
    ∧ (∀ fr ctx eff v d, urldecodeL v = some d →
        procSeg fr ctx eff (lstr "token=" ++ v)
          = (POutcome.ok {ctx with token := pkcs11_pad d 32}, eff))
    ∧ (∀ fr ctx eff v d, urldecodeL v = some d →
        procSeg fr ctx eff (lstr "manufacturer=" ++ v)
          = (POutcome.ok {ctx with manufacturer := pkcs11_pad d 32}, eff))
    ∧ (pkcs11_parse_items fr0 {} (lstr "id=01;id=02")).1
        = POutcome.ok {id := some (lstr "01")}
    ∧ (pkcs11_parse_items fr0 {} (lstr "model=AA;model=BB")).1
        = POutcome.ok {model := pkcs11_pad (lstr "BB") 16}
    ∧ (pkcs11_parse_items fr0 {} (lstr "serial=AA;serial=BB")).1
        = POutcome.ok {serial := pkcs11_pad (lstr "BB") 16}
    ∧ (pkcs11_parse_items fr0 {} (lstr "token=AA;token=BB")).1
        = POutcome.ok {token := pkcs11_pad (lstr "BB") 32}
    ∧ (pkcs11_parse_items fr0 {} (lstr "manufacturer=AA;manufacturer=BB")).1
        = POutcome.ok {manufacturer := pkcs11_pad (lstr "BB") 32} := by
  refine ⟨?_, ?_, ?_, ?_, ?_, by decide, by decide, by decide, by decide,
    by decide⟩
  · intro fr segs ctx eff ctx2 eff2 h
    exact (goItems_spec fr segs ctx eff (POutcome.ok ctx2) eff2 h).2.1 ctx2 rfl
  · intro fr ctx eff v d h
    have hred : procSeg fr ctx eff (lstr "model=" ++ v)
        = (match urldecodeL v with
           | some w => (POutcome.ok {ctx with model := pkcs11_pad w 16}, eff)
           | none => (POutcome.undef, eff)) := rfl
    rw [hred, h]
  · intro fr ctx eff v d h
    have hred : procSeg fr ctx eff (lstr "serial=" ++ v)
        = (match urldecodeL v with
           | some w => (POutcome.ok {ctx with serial := pkcs11_pad w 16}, eff)
           | none => (POutcome.undef, eff)) := rfl
    rw [hred, h]
  · intro fr ctx eff v d h
    have hred : procSeg fr ctx eff (lstr "token=" ++ v)
        = (match urldecodeL v with
           | some w => (POutcome.ok {ctx with token := pkcs11_pad w 32}, eff)
           | none => (POutcome.undef, eff)) := rfl
    rw [hred, h]
  · intro fr ctx eff v d h
    have hred : procSeg fr ctx eff (lstr "manufacturer=" ++ v)
        = (match urldecodeL v with
           | some w =>
               (POutcome.ok {ctx with manufacturer := pkcs11_pad w 32}, eff)
           | none => (POutcome.undef, eff)) := rfl
    rw [hred, h]

/-- Witness for C2: the preservation part applied to a context whose id is
already `01` and a later duplicate `id=02` segment, and the four overwrite
parts applied to `model=AA`, `serial=AA`, `token=AA` and `manufacturer=AA`
segments hitting an unconstrained context. -/
theorem claim2_witness :
    (({id := some (lstr "01")} : PKCS11_CTX).id = some (lstr "01"))
    ∧ procSeg fr0 {} {} (lstr "model=" ++ lstr "AA")
        = (POutcome.ok {model := pkcs11_pad (lstr "AA") 16}, {})
    ∧ procSeg fr0 {} {} (lstr "serial=" ++ lstr "AA")
        = (POutcome.ok {serial := pkcs11_pad (lstr "AA") 16}, {})
    ∧ procSeg fr0 {} {} (lstr "token=" ++ lstr "AA")
        = (POutcome.ok {token := pkcs11_pad (lstr "AA") 32}, {})
    ∧ procSeg fr0 {} {} (lstr "manufacturer=" ++ lstr "AA")
        = (POutcome.ok {manufacturer := pkcs11_pad (lstr "AA") 32}, {}) :=
  ⟨(claim2_amended_duplicates.1 fr0 [lstr "id=02"] {id := some (lstr "01")} {}
      {id := some (lstr "01")} {} (by decide)).2.2.1 (by decide),
   claim2_amended_duplicates.2.1 fr0 {} {} (lstr "AA") (lstr "AA") (by decide),
   claim2_amended_duplicates.2.2.1 fr0 {} {} (lstr "AA") (lstr "AA") (by decide),
   claim2_amended_duplicates.2.2.2.1 fr0 {} {} (lstr "AA") (lstr "AA")
     (by decide),
   claim2_amended_duplicates.2.2.2.2.1 fr0 {} {} (lstr "AA") (lstr "AA")
     (by decide)⟩

/-- Counterexample to claim C4 as stated: with `pin-source=file:f` occurring
before `pin-value=1234`, the file is read and its content becomes the
secret, the literal being ignored; and a caller-preset secret makes the URI
literal a no-op. -/
theorem claim4_counterexample :
    pkcs11_parse_items fr1 {} (lstr "pin-source=file:f;pin-value=1234")
      = (POutcome.ok {pin := some (lstr "filesecret")}, {filesRead := [lstr "f"]})
    ∧ pkcs11_parse_items fr1 {pin := some (lstr "preset")} (lstr "pin-value=1234")
      = (POutcome.ok {pin := some (lstr "preset")}, {}) := by
  refine ⟨by decide, by decide⟩

/-- Claim C4 as amended: the secret that is set first wins.  Once a pin is
present (caller-preset or set by an earlier segment), later `pin-value=` and
`pin-source=` segments are ignored and no pin file is ever read; when no pin
is preset and `pin-value=` occurs first, the literal wins and the
`pin-source` file is never read. -/
theorem claim4_amended_first_set_wins :
    (∀ fr segs ctx eff out eff2, goItems fr segs ctx eff = (out, eff2) →
        ctx.pin.isSome = true → eff2 = eff)
    ∧ (∀ fr segs ctx eff ctx2 eff2,
        goItems fr segs ctx eff = (POutcome.ok ctx2, eff2) →
        ctx.pin.isSome = true → ctx2.pin = ctx.pin)
    ∧ (∀ fr (v : Str) rest ctx eff, ctx.pin = none →
        goItems fr ((lstr "pin-value=" ++ v) :: rest) ctx eff
          = goItems fr rest {ctx with pin := some v} eff)
    ∧ (∀ fr, pkcs11_parse_items fr {} (lstr "pin-value=1234;pin-source=file:f")
        = (POutcome.ok {pin := some (lstr "1234")}, {})) := by
  refine ⟨?_, ?_, ?_, ?_⟩
  · intro fr segs ctx eff out eff2 h hp
    exact (goItems_spec fr segs ctx eff out eff2 h).1 hp
  · intro fr segs ctx eff ctx2 eff2 h hp
    exact (goItems_spec fr segs ctx eff (POutcome.ok ctx2) eff2 h).2.1 ctx2 rfl
      |>.1 hp
  · intro fr v rest ctx eff h
    rcases ctx with ⟨pin, label, id, type, mp, slotid, model, serial, token, manu⟩
    simp only at h
    subst h
    rfl
  · intro fr
    rfl

/-- Witness for C4: the preservation parts applied to a preset-pin context
over a `pin-source=file:f` segment (whose file oracle would return a
secret), and the first-segment part applied to `pin-value=99`. -/
theorem claim4_witness :
    (goItems fr1 [lstr "pin-source=file:f"] {pin := some (lstr "x")} {}).2 = ({} : Eff)
    ∧ goItems fr1 [lstr "pin-value=" ++ lstr "99"] {} {}
        = goItems fr1 [] {pin := some (lstr "99")} {} :=
  ⟨claim4_amended_first_set_wins.1 fr1 [lstr "pin-source=file:f"]
      {pin := some (lstr "x")} {}
      (goItems fr1 [lstr "pin-source=file:f"] {pin := some (lstr "x")} {}).1
      (goItems fr1 [lstr "pin-source=file:f"] {pin := some (lstr "x")} {}).2
      rfl (by decide),
   claim4_amended_first_set_wins.2.2.1 fr1 (lstr "99") [] {} {} rfl⟩

/-- Counterexample to claim C5 as stated: in a listing context with the type
criterion `privatex` — which is not `private` — the code still issues the
interactive prompt, because the source compares only the first 7 bytes
(`strncmp(ctx->type, "private", 7)`). -/
theorem claim5_counterexample :
    (pkcs11_parse fr0 (some (lstr "m")) (some (lstr "p")) {}
        (lstr "pkcs11:type=privatex;object=o") true).2.prompted = true
    ∧ (pkcs11_parse fr0 (some (lstr "m")) (some (lstr "p")) {}
        (lstr "pkcs11:type=privatex;object=o") true).1
      = POutcome.ok {type := some (lstr "privatex"), label := some (lstr "o"),
                     module_path := some (lstr "m"), pin := some (lstr "p")}
    ∧ (lstr "privatex") ≠ (lstr "private") := by
  refine ⟨by decide, by decide, by decide⟩

/-- Claim C5 as amended: when no secret was set earlier, the prompt runs
exactly when the context is direct-key, or the context is listing and the
type criterion BEGINS WITH `private` (first 7 bytes); a failed or cancelled
prompt aborts the resolution with failure. -/
theorem claim5_amended_prompt_condition :
    (∀ store ctx, promptCond store ctx = true
        ↔ (ctx.pin = none ∧ (store = false ∨ typeIsPrivate ctx = true)))
    ∧ (∀ pp store ctx eff, eff.prompted = false →
        ((promptPhase pp store ctx eff).2.prompted = true
          ↔ promptCond store ctx = true))
    ∧ (∀ pp store ctx eff, promptCond store ctx = true → pp = none →
        (promptPhase pp store ctx eff).1 = POutcome.err ParseErr.promptFailed)
    ∧ (∀ ctx t, ctx.type = some t →
        typeIsPrivate ctx = strncmpEq (lstr "private") t)
    ∧ (∀ ctx, ctx.type = none → typeIsPrivate ctx = false) := by
  refine ⟨?_, ?_, ?_, ?_, ?_⟩
  · intro store ctx
    cases store <;>
      simp [promptCond, Option.isNone_iff_eq_none]
  · intro pp store ctx eff he
    by_cases hc : promptCond store ctx = true
    · rw [promptPhase, if_pos hc]
      cases pp <;> simp [hc]
    · rw [promptPhase, if_neg hc]
      simp [he, hc]
  · intro pp store ctx eff hc hpp
    subst hpp
    rw [promptPhase, if_pos hc]
  · intro ctx t h
    simp [typeIsPrivate, h]
  · intro ctx h
    simp [typeIsPrivate, h]

/-- Witness for C5 at concrete inputs: with no pin, a listing context and
type `privateer`, the prompt condition holds and a failing prompt yields the
failure error. -/
theorem claim5_witness :
    (promptCond true {type := some (lstr "privateer")} = true
      ↔ (({type := some (lstr "privateer")} : PKCS11_CTX).pin = none
          ∧ (true = false ∨ typeIsPrivate {type := some (lstr "privateer")} = true)))
    ∧ (promptPhase none true {type := some (lstr "privateer")} {}).1
        = POutcome.err ParseErr.promptFailed :=
  ⟨claim5_amended_prompt_condition.1 true {type := some (lstr "privateer")},
   claim5_amended_prompt_condition.2.2.1 none true {type := some (lstr "privateer")}
     {} (by decide) rfl⟩

lemma parseTail_err_kind (env pp : Option Str) (store : Bool) (ctx : PKCS11_CTX)
    (eff : Eff) (e : ParseErr)
    (h : (parseTail env pp store ctx eff).1 = POutcome.err e) :
    e = ParseErr.missingModulePath ∨ e = ParseErr.promptFailed := by
  rcases hm : checkModulePath env ctx with _ | ctx2 <;>
    simp only [parseTail, hm] at h
  · simp at h
    exact Or.inl h.symm
  · by_cases hc : promptCond store ctx2 = true
    · rw [promptPhase, if_pos hc] at h
      cases pp <;> simp at h
      exact Or.inr h.symm
    · rw [promptPhase, if_neg hc] at h
      simp at h

/-- Claim C6: for a `pkcs11:`-prefixed URI whose item scan leaves both `id`
and `label` unset (NULL), parsing in direct-key context fails at the
id/label presence check, while in listing (store) context that check is
skipped — no input ever makes a store-context parse fail for that reason. -/
theorem claim6_missing_selector :
    (∀ fr env pp ctx path store ctx1 eff,
      strncmpEq (lstr "pkcs11:") path = true →
      pkcs11_parse_items fr ctx (path.drop 7) = (POutcome.ok ctx1, eff) →
      ctx1.id = none → ctx1.label = none → store = false →
      pkcs11_parse fr env pp ctx path store
        = (POutcome.err ParseErr.missingSelector, eff))
    ∧ (∀ fr env pp ctx path,
        (pkcs11_parse fr env pp ctx path true).1
          ≠ POutcome.err ParseErr.missingSelector) := by
  constructor
  · intro fr env pp ctx path store ctx1 eff hpfx hitems hid hlabel hstore
    subst hstore
    simp only [pkcs11_parse]
    rw [if_pos hpfx, hitems]
    simp [hid, hlabel]
  · intro fr env pp ctx path h
    by_cases hpfx : strncmpEq (lstr "pkcs11:") path = true
    · simp only [pkcs11_parse] at h
      rw [if_pos hpfx] at h
      rcases hitems : pkcs11_parse_items fr ctx (path.drop 7) with ⟨out1, eff1⟩
      rw [hitems] at h
      cases out1 with
      | ok c1 =>
        simp only [Bool.not_true, Bool.and_false, Bool.false_eq_true,
          if_false] at h
        rcases parseTail_err_kind env pp true c1 eff1 _ h with k | k <;>
          exact absurd k.symm (by decide)
      | err e1 =>
        simp at h
        rcases (goItems_spec fr (splitSemi (path.drop 7)) ctx {}
            (POutcome.err e1) eff1 hitems).2.2 e1 rfl with k | k <;>
          simp_all
      | undef =>
        simp at h
    · simp only [pkcs11_parse] at h
      rw [if_neg hpfx] at h
      rcases hd : urldecodeL path with _ | v <;> rw [hd] at h <;>
        simp only [] at h
      · simp at h
      · rcases parseTail_err_kind env pp true {ctx with id := some v} {} _ h
          with k | k <;> exact absurd k.symm (by decide)

/-- Witness for C6: `pkcs11:token=t` in direct-key context leaves both id
and label unset and fails at the presence check; the same URI in store
context does not fail with that error. -/
theorem claim6_witness :
    pkcs11_parse fr0 none none {} (lstr "pkcs11:token=t") false
      = (POutcome.err ParseErr.missingSelector, {})
    ∧ (pkcs11_parse fr0 none none {} (lstr "pkcs11:token=t") true).1
      ≠ POutcome.err ParseErr.missingSelector :=
  ⟨claim6_missing_selector.1 fr0 none none {} (lstr "pkcs11:token=t") false
      {token := pkcs11_pad (lstr "t") 32} {} (by decide) (by decide) rfl rfl rfl,
   claim6_missing_selector.2 fr0 none none {} (lstr "pkcs11:token=t")⟩

/-- Claim C7: when `module_path` is still unset after the scheme-specific
phase, `pkcs11_parse` falls back to the environment value (the
`PKCS11_MODULE_PATH` lookup, modelled by the `env` parameter); when that is
also absent the parse fails with the missing-module-path error instead of
succeeding with a default. -/
theorem claim7_module_path_fallback :
    (∀ ctx, ctx.module_path = none → checkModulePath none ctx = none)
    ∧ (∀ ctx m, ctx.module_path = none →
        checkModulePath (some m) ctx = some {ctx with module_path := some m})
    ∧ (∀ env ctx p, ctx.module_path = some p → checkModulePath env ctx = some ctx)
    ∧ (∀ fr pp ctx path store ctx1 eff,
        strncmpEq (lstr "pkcs11:") path = true →
        pkcs11_parse_items fr ctx (path.drop 7) = (POutcome.ok ctx1, eff) →
        (ctx1.id.isNone && ctx1.label.isNone && !store) = false →
        ctx1.module_path = none →
        pkcs11_parse fr none pp ctx path store
          = (POutcome.err ParseErr.missingModulePath, eff)) := by
  refine ⟨?_, ?_, ?_, ?_⟩
  · intro ctx h
    simp [checkModulePath, h]
  · intro ctx m h
    simp [checkModulePath, h]
  · intro env ctx p h
    simp [checkModulePath, h]
  · intro fr pp ctx path store ctx1 eff hpfx hitems hsel hmp
    simp only [pkcs11_parse]
    rw [if_pos hpfx, hitems]
    simp [hsel, parseTail, checkModulePath, hmp]

/-- Witness for C7: `pkcs11:id=ab` with no module path anywhere fails with
the missing-module-path error. -/
theorem claim7_witness :
    pkcs11_parse fr0 none none {} (lstr "pkcs11:id=ab") false
      = (POutcome.err ParseErr.missingModulePath, {})
    ∧ checkModulePath none ({} : PKCS11_CTX) = none :=
  ⟨claim7_module_path_fallback.2.2.2 fr0 none {} (lstr "pkcs11:id=ab") false
      {id := some (lstr "ab")} {} (by decide) (by decide) (by decide) rfl,
   claim7_module_path_fallback.1 {} rfl⟩

/-- Claim C8: `cert_issuer_match` treats an empty candidate-issuer list as a
wildcard and otherwise requires equality with some entry; the selection loop
accepts exactly the first enumerated certificate passing the issuer and
client-auth checks, looks the private key up under that certificate's id,
and examines no later candidate; with no acceptable candidate it fails
after examining the whole enumeration; and under a successful preamble the
public operation's result is exactly the loop's. -/
theorem claim8_client_cert_selection :
    (∀ c : CertInfo, cert_issuer_match [] c = true)
    ∧ (∀ (ca_dn : List Str) (c : CertInfo), ca_dn ≠ [] →
        (cert_issuer_match ca_dn c = true ↔ c.issuer ∈ ca_dn))
    ∧ (∀ ca_dn kf ld (certs : List CertInfo) c,
        certs.find? (acceptCert ca_dn) = some c →
        certLoop ca_dn kf ld certs
          = {pcert := some c, pkey := (kf c.id).bind (fun k => ld k),
             ret := (kf c.id).isSome,
             examined :=
               certs.takeWhile (fun x => !acceptCert ca_dn x) ++ [c]})
    ∧ (∀ ca_dn kf ld (certs : List CertInfo),
        certs.find? (acceptCert ca_dn) = none →
        certLoop ca_dn kf ld certs = {examined := certs})
    ∧ (∀ o : CCOracle, o.ctx_present = true → o.init_ok = true →
        o.slot_ok = true → o.session_ok = true → o.pin0.isSome = true →
        o.search_ok = true →
        pkcs11_load_ssl_client_cert o
          = {pcert := (certLoop o.ca_dn o.keyFor o.load o.certs).pcert,
             pkey := (certLoop o.ca_dn o.keyFor o.load o.certs).pkey,
             ret := (certLoop o.ca_dn o.keyFor o.load o.certs).ret,
             examined := (certLoop o.ca_dn o.keyFor o.load o.certs).examined,
             trace := {opened := 1, closed := 0}}) := by
  refine ⟨?_, ?_, ?_, ?_, ?_⟩
  · intro c
    simp [cert_issuer_match]
  · intro ca_dn c hne
    cases ca_dn with
    | nil => exact absurd rfl hne
    | cons a l =>
      constructor
      · intro h
        have h2 : (a :: l).any (fun nm => nm == c.issuer) = true := by
          simpa [cert_issuer_match] using h
        rcases List.any_eq_true.mp h2 with ⟨x, hx, hbeq⟩
        have hxe : x = c.issuer := by simpa using hbeq
        subst hxe
        exact hx
      · intro h
        have h2 : (a :: l).any (fun nm => nm == c.issuer) = true :=
          List.any_eq_true.mpr ⟨c.issuer, h, by simp⟩
        simpa [cert_issuer_match] using h2
  · intro ca_dn kf ld certs
    induction certs with
    | nil =>
      intro c hc
      simp at hc
    | cons a rest ih =>
      intro c hc
      by_cases ha : acceptCert ca_dn a = true
      · rw [List.find?_cons] at hc
        rw [ha] at hc
        simp at hc
        subst hc
        rw [certLoop, if_pos ha, List.takeWhile_cons]
        simp [ha]
        cases hk : kf a.id <;> simp [hk]
      · rw [List.find?_cons] at hc
        rw [Bool.not_eq_true] at ha
        rw [ha] at hc
        simp only at hc
        rw [certLoop, if_neg (by simp [ha]), ih c hc]
        rw [List.takeWhile_cons]
        simp [ha]
  · intro ca_dn kf ld certs
    induction certs with
    | nil =>
      intro h
      rfl
    | cons a rest ih =>
      intro h
      rw [List.find?_cons] at h
      by_cases ha : acceptCert ca_dn a = true
      · rw [ha] at h
        simp at h
      · rw [Bool.not_eq_true] at ha
        rw [ha] at h
        simp only at h
        rw [certLoop, if_neg (by simp [ha]), ih h]
  · intro o h1 h2 h3 h4 h5 h6
    rcases o with ⟨cp, io, so, se, p0, pp, sr, dn, cs, kf, ld⟩
    simp only at h1 h2 h3 h4 h5 h6
    subst h1; subst h2; subst h3; subst h4; subst h6
    cases p0 with
    | none => simp at h5
    | some pw => rfl

/-- A candidate whose issuer is not on the list but whose usage is fine. -/
def certOther : CertInfo := {issuer := lstr "X", clientAuthOk := true, id := lstr "i1"}

/-- A candidate matching issuer `CA` with client-auth usage. -/
def certGood : CertInfo := {issuer := lstr "CA", clientAuthOk := true, id := lstr "i2"}

/-- Key lookup of the C8 witness: only the good certificate's id has a key. -/
def kf8 : Str → Option Nat := fun i => if i == lstr "i2" then some 5 else none

/-- Key materialization of the C8 witness. -/
def ld8 : Nat → Option Nat := fun k => some (k + 1)

/-- Witness for C8: with issuer list `[CA]`, the first candidate (issuer
`X`, otherwise usable) is skipped and the second accepted, its key located,
and both candidates — but nothing beyond — examined. -/
theorem claim8_witness :
    certLoop [lstr "CA"] kf8 ld8 [certOther, certGood]
      = {pcert := some certGood, pkey := (kf8 certGood.id).bind (fun k => ld8 k),
         ret := (kf8 certGood.id).isSome,
         examined := ([certOther, certGood].takeWhile
           (fun x => !acceptCert [lstr "CA"] x)) ++ [certGood]}
    ∧ (cert_issuer_match [lstr "CA"] certOther = true
        ↔ certOther.issuer ∈ [lstr "CA"]) :=
  ⟨claim8_client_cert_selection.2.2.1 [lstr "CA"] kf8 ld8 [certOther, certGood]
      certGood (by decide),
   claim8_client_cert_selection.2.1 [lstr "CA"] certOther (by decide)⟩
